import Mathlib

/-!
Verification of the in-memory correlation broker of absher-zt-backend.

The embedding follows the two source files:
- `src/req_code.rs`: `RequestCode` (a `[u8; 9]` of uppercase ASCII letters),
  its random generation, textual round-trip and parsing.
- `src/main.rs`: the pending-request registry (a `DashMap<RequestCode,
  PendingRequest>`), `new_request`, the `resolve` and `fetch` handlers and
  the background expiry sweep.

Machine integers and instants are modelled as `Nat` (instants never overflow
in the claims considered), strings as lists of byte values, the `DashMap` as
a function `RequestCode → Option PendingRequest`, and the oneshot channel's
sender by a boolean recording whether the receiving half is still alive
(`futures_channel::oneshot::Sender::send` succeeds exactly when it is).
Randomness is modelled by an explicit stream of draws supplied as an
argument, and the generation loop of `new_request` carries explicit fuel,
returning `none` when the fuel is exhausted.
-/

namespace AbsherZT

/-- Byte value of `'A'`. -/
def byteA : Nat := 65

/-- Byte value of `'Z'`. -/
def byteZ : Nat := 90

/-- `(b'A'..=b'Z').contains(char)` from `req_code.rs`. -/
def isUpperAZ (b : Nat) : Bool := decide (byteA ≤ b) && decide (b ≤ byteZ)

/-- `RequestCode` from `req_code.rs`: a sequence of bytes. The Rust type is
`[u8; 9]`; the length-9 property is proved rather than baked into the type. -/
structure RequestCode where
  bytes : List Nat
deriving DecidableEq

/-- `RequestCode::new_rand`: each of the 9 bytes is drawn uniformly from
`b'A'..=b'Z'`. The rng is an explicit stream `draw`; `rng.random_range`
mapping its raw draw into the closed range is modelled as `65 + draw i % 26`,
which is exactly the range of values `random_range(b'A'..=b'Z')` can
produce. -/
def RequestCode.new_rand (draw : Nat → Nat) : RequestCode :=
  ⟨(List.range 9).map (fun i => byteA + draw i % 26)⟩

/-- `RequestCode::as_str`: the textual representation is the raw bytes
(all bytes are ASCII uppercase letters, so UTF-8 is the identity here). -/
def RequestCode.as_str (c : RequestCode) : List Nat := c.bytes

/-- `RequestCode::from_str`: `<[u8; 9]>::try_from(s.as_bytes())` fails on any
length other than 9; then any byte outside `b'A'..=b'Z'` is rejected. -/
def RequestCode.from_str (s : List Nat) : Except String RequestCode :=
  if s.length = 9 then
    if s.all isUpperAZ then Except.ok ⟨s⟩
    else Except.error "invalid character in key"
  else Except.error "mismatched keycode length"

/-- `RequestedAutofillFields` from `main.rs`: seven boolean flags,
each `#[serde(default)]` (absent means `false`). -/
structure RequestedAutofillFields where
  name : Bool
  email : Bool
  phone_number : Bool
  id : Bool
  profile_picture : Bool
  license : Bool
  id_image : Bool
deriving DecidableEq

/-- `AutofillData` from `main.rs`: the provider's payload, every field
independently optional and opaque to the broker. -/
structure AutofillData where
  name : Option (String × String)
  email : Option String
  phone_number : Option String
  id : Option String
  profile_picture : Option String
  license : Option String
  id_image : Option String
deriving DecidableEq

/-- `PendingRequest` from `main.rs`. The field `notify` models the
`oneshot::Sender<AutofillData>`: `true` means the receiving half is still
alive, so `send` succeeds; `false` means the receiver was dropped, so `send`
returns `Err` (a safe no-op). -/
structure PendingRequest where
  notify : Bool
  data_requested : RequestedAutofillFields
  expires_at : Nat
deriving DecidableEq

/-- The `DashMap<RequestCode, PendingRequest>` registry `MAP`, as the live
partial map from codes to pending requests. -/
abbrev Registry := RequestCode → Option PendingRequest

/-- The empty registry (process start). -/
def emptyReg : Registry := fun _ => none

/-- Effect of `MAP.remove(&code)` on the map: the entry at `code` is removed
unconditionally (whether live, expired or absent). -/
def removeCode (m : Registry) (code : RequestCode) : Registry :=
  fun c => if c = code then none else m c

/-- Outcome of the `resolve` handler, named as in the spec:
`Delivered` is `HttpResponse::Ok()`, `DeliveredButUnheard` is
`HttpResponse::Accepted()`, `NotFound` is `HttpResponse::NotFound()`. -/
inductive ResolutionOutcome where
  | Delivered
  | DeliveredButUnheard
  | NotFound
deriving DecidableEq

/-- HTTP status code each `resolve` outcome maps to in `main.rs`. -/
def ResolutionOutcome.httpStatus : ResolutionOutcome → Nat
  | .Delivered => 200
  | .DeliveredButUnheard => 202
  | .NotFound => 404

/-- Result of one `resolve` call: the outcome reported to the provider, the
registry afterwards, and the payload handed to the oneshot receiver
(`some` exactly when `notify.send` succeeded). -/
structure ResolveResult where
  outcome : ResolutionOutcome
  registry : Registry
  delivered : Option AutofillData

/-- The `resolve` handler (`POST /requests/{code}`):
`MAP.remove(&code).map(|(_, data)| data).filter(|data| Instant::now() <= data.expires_at)`,
then `NotFound` if that is `None`; otherwise `request.notify.send(payload)`,
answering `Accepted` when the send fails (nobody listening) and `Ok` when it
succeeds. `now` is the `Instant::now()` observed by the filter. -/
def resolve (m : Registry) (code : RequestCode) (now : Nat) (payload : AutofillData) :
    ResolveResult :=
  match m code with
  | none => ⟨.NotFound, removeCode m code, none⟩
  | some d =>
    if now ≤ d.expires_at then
      if d.notify then ⟨.Delivered, removeCode m code, some payload⟩
      else ⟨.DeliveredButUnheard, removeCode m code, none⟩
    else ⟨.NotFound, removeCode m code, none⟩

/-- Result of one `fetch` call: what is returned to the viewer, and the
registry afterwards (`DashMap::get` does not mutate the map). -/
structure FetchResult where
  result : Option RequestedAutofillFields
  registry : Registry

/-- The `fetch` handler (`GET /requests/{code}`):
`MAP.get(&code).filter(|data| Instant::now() <= data.expires_at).map(|entry| entry.data_requested)`,
non-destructive. -/
def fetch (m : Registry) (code : RequestCode) (now : Nat) : FetchResult :=
  { result :=
      match m code with
      | some d => if now ≤ d.expires_at then some d.data_requested else none
      | none => none
    registry := m }

/-- One sweep of the expiry reclaimer (`remove_expried` in `main`):
`map.retain(|_code, data| now < data.expires_at)`. -/
def retain_live (m : Registry) (now : Nat) : Registry :=
  fun c =>
    match m c with
    | some d => if now < d.expires_at then some d else none
    | none => none

/-- Deadline offset used by `new_request`: 3 minutes officially, plus the
undocumented non-guaranteed 3 s grace (`Duration::from_secs(3 * 60 + 3)`). -/
def timeoutSecs : Nat := 3 * 60 + 3

/-- `new_request` from `main.rs`: draw a candidate code; on
`Entry::Occupied` discard it and loop with a fresh draw; on `Entry::Vacant`
create the oneshot channel and insert a `PendingRequest` expiring at
`now + 183 s`, with the receiver alive. `draws` is the stream of candidate
codes produced by `RequestCode::new_rand`, consumed from index `idx`;
`fuel` bounds the number of loop iterations (the Rust loop is unbounded). -/
def new_request (fuel : Nat) (draws : Nat → RequestCode) (idx : Nat) (m : Registry)
    (now : Nat) (selected : RequestedAutofillFields) :
    Option (RequestCode × Registry) :=
  match fuel with
  | 0 => none
  | Nat.succ fuel =>
    let code := draws idx
    match m code with
    | some _ => new_request fuel draws (idx + 1) m now selected
    | none =>
      some (code, fun c =>
        if c = code then some ⟨true, selected, now + timeoutSecs⟩ else m c)

/-- Outcome seen by the requester awaiting
`tokio::time::timeout_at(timeout, rx)` in `listen`: `Ok(Ok(data))` yields the
payload; both `Ok(Err(_))` (sender dropped) and `Err(_)` (deadline elapsed)
are answered with "request timed out". The argument is the payload the
oneshot sender transferred before the timeout, if any. -/
inductive AwaitOutcome where
  | Data (d : AutofillData)
  | Timeout
deriving DecidableEq

/-- Maps what was sent over the oneshot channel to what the waiting
requester observes. -/
def awaitOutcome : Option AutofillData → AwaitOutcome
  | some d => .Data d
  | none => .Timeout

/-! Helper lemmas. -/

lemma removeCode_self (m : Registry) (c : RequestCode) : removeCode m c c = none := by
  simp [removeCode]

lemma removeCode_other (m : Registry) (c x : RequestCode) (h : x ≠ c) :
    removeCode m c x = m x := by
  simp [removeCode, h]

lemma resolve_registry (m : Registry) (c : RequestCode) (now : Nat) (p : AutofillData) :
    (resolve m c now p).registry = removeCode m c := by
  unfold resolve
  cases m c with
  | none => rfl
  | some d =>
    dsimp only
    split
    · split <;> rfl
    · rfl

lemma resolve_of_none (m : Registry) (c : RequestCode) (now : Nat) (p : AutofillData)
    (h : m c = none) : resolve m c now p = ⟨.NotFound, removeCode m c, none⟩ := by
  unfold resolve
  rw [h]

lemma resolve_of_expired (m : Registry) (c : RequestCode) (now : Nat) (p : AutofillData)
    (r : PendingRequest) (h : m c = some r) (hexp : r.expires_at < now) :
    resolve m c now p = ⟨.NotFound, removeCode m c, none⟩ := by
  unfold resolve
  rw [h]
  simp [Nat.not_le.mpr hexp]

lemma resolve_of_live (m : Registry) (c : RequestCode) (now : Nat) (p : AutofillData)
    (r : PendingRequest) (h : m c = some r) (hlive : now ≤ r.expires_at) :
    resolve m c now p =
      if r.notify then ⟨.Delivered, removeCode m c, some p⟩
      else ⟨.DeliveredButUnheard, removeCode m c, none⟩ := by
  unfold resolve
  rw [h]
  simp [hlive]

/-- Specification of the `new_request` loop: when it returns, the returned
code was vacant in the registry at the moment of the insert, the new registry
is exactly the old one extended at that code, and the code is one of the
drawn candidates, every earlier candidate having been discarded because it
was occupied. -/
lemma new_request_spec (fuel : Nat) (draws : Nat → RequestCode) (idx : Nat)
    (m : Registry) (now : Nat) (selected : RequestedAutofillFields)
    (code : RequestCode) (m' : Registry)
    (h : new_request fuel draws idx m now selected = some (code, m')) :
    m code = none ∧
    m' = (fun c => if c = code then some ⟨true, selected, now + timeoutSecs⟩ else m c) ∧
    ∃ k, k < fuel ∧ code = draws (idx + k) ∧
      ∀ j, j < k → m (draws (idx + j)) ≠ none := by
  induction fuel generalizing idx with
  | zero => simp [new_request] at h
  | succ fuel ih =>
    rw [new_request] at h
    cases hm : m (draws idx) with
    | some d =>
      rw [hm] at h
      obtain ⟨h1, h2, k, hk, hcode, hj⟩ := ih (idx + 1) h
      refine ⟨h1, h2, k + 1, by omega, ?_, ?_⟩
      · have harith : idx + 1 + k = idx + (k + 1) := by omega
        rw [harith] at hcode
        exact hcode
      · intro j hjlt
        cases j with
        | zero => simp [hm]
        | succ j =>
          have harith : idx + (j + 1) = idx + 1 + j := by omega
          rw [harith]
          exact hj j (by omega)
    | none =>
      rw [hm] at h
      have hpair := Option.some.inj h
      have hcode : draws idx = code := congrArg Prod.fst hpair
      have hmap : m' =
          (fun c => if c = draws idx then
            some ⟨true, selected, now + timeoutSecs⟩ else m c) :=
        (congrArg Prod.snd hpair).symm
      subst hcode
      refine ⟨hm, hmap, 0, by omega, by simp, by omega⟩

lemma fetch_result_of_some (m : Registry) (c : RequestCode) (now : Nat)
    (r : PendingRequest) (h : m c = some r) :
    (fetch m c now).result =
      if now ≤ r.expires_at then some r.data_requested else none := by
  unfold fetch
  rw [h]

lemma fetch_registry (m : Registry) (c : RequestCode) (now : Nat) :
    (fetch m c now).registry = m := rfl

/-! Concrete fixtures used by witnesses and counterexamples. -/

/-- The code "ABCDEFGHI". -/
def codeA : RequestCode := ⟨[65, 66, 67, 68, 69, 70, 71, 72, 73]⟩

/-- The code "ZYXWVUTSR". -/
def codeB : RequestCode := ⟨[90, 89, 88, 87, 86, 85, 84, 83, 82]⟩

/-- A request for the email field only. -/
def fields0 : RequestedAutofillFields := ⟨false, true, false, false, false, false, false⟩

/-- A payload carrying only an email. -/
def payload0 : AutofillData := ⟨none, some "a@b.com", none, none, none, none, none⟩

/-- A live entry whose receiver is still listening, expiring at instant 100. -/
def entryLive : PendingRequest := ⟨true, fields0, 100⟩

/-- A live entry whose receiver was dropped, expiring at instant 100. -/
def entryDeaf : PendingRequest := ⟨false, fields0, 100⟩

/-- An entry already past its deadline at the instants the witnesses use. -/
def entryExpired : PendingRequest := ⟨true, fields0, 5⟩

/-- Registry holding `entryLive` at `codeA`. -/
def regLive : Registry := fun c => if c = codeA then some entryLive else none

/-- Registry holding `entryDeaf` at `codeA`. -/
def regDeaf : Registry := fun c => if c = codeA then some entryDeaf else none

/-- Registry holding `entryExpired` at `codeA`. -/
def regExpired : Registry := fun c => if c = codeA then some entryExpired else none

/-! Claim theorems. -/

/-- Claim C1: if a `resolve` of a code succeeds (`Delivered` or
`DeliveredButUnheard`), the entry is removed atomically with delivery, so any
subsequent `resolve` of the same code returns `NotFound`. -/
theorem C1_resolve_twice_notFound (m : Registry) (c : RequestCode) (now1 now2 : Nat)
    (p1 p2 : AutofillData)
    (h : (resolve m c now1 p1).outcome = ResolutionOutcome.Delivered ∨
      (resolve m c now1 p1).outcome = ResolutionOutcome.DeliveredButUnheard) :
    (resolve (resolve m c now1 p1).registry c now2 p2).outcome =
      ResolutionOutcome.NotFound := by
  rw [resolve_registry, resolve_of_none _ _ now2 p2 (removeCode_self m c)]

/-- Witness for C1 at a concrete live registry: first resolve delivers,
second resolve of the same code is `NotFound`. -/
theorem C1_witness :
    ((resolve regLive codeA 0 payload0).outcome = ResolutionOutcome.Delivered ∨
      (resolve regLive codeA 0 payload0).outcome = ResolutionOutcome.DeliveredButUnheard) ∧
    (resolve (resolve regLive codeA 0 payload0).registry codeA 50 payload0).outcome =
      ResolutionOutcome.NotFound :=
  ⟨Or.inl (by decide),
   C1_resolve_twice_notFound regLive codeA 0 50 payload0 payload0 (Or.inl (by decide))⟩

/-- Claim C3: `resolve` answers `NotFound` both for a code that was never
created and for a code whose deadline has passed, and the two cases produce
the same outcome value, indistinguishable to the caller. -/
theorem C3_notFound_indistinguishable (m1 m2 : Registry) (c : RequestCode)
    (r : PendingRequest) (now : Nat) (p : AutofillData)
    (h1 : m1 c = none) (h2 : m2 c = some r) (h3 : r.expires_at < now) :
    (resolve m1 c now p).outcome = ResolutionOutcome.NotFound ∧
    (resolve m2 c now p).outcome = ResolutionOutcome.NotFound ∧
    (resolve m1 c now p).outcome = (resolve m2 c now p).outcome := by
  rw [resolve_of_none _ _ _ _ h1, resolve_of_expired _ _ _ _ _ h2 h3]
  exact ⟨rfl, rfl, rfl⟩

/-- Witness for C3: empty registry vs. a registry whose entry at `codeA`
expired at instant 5, both resolved at instant 10. -/
theorem C3_witness :
    (resolve emptyReg codeA 10 payload0).outcome = ResolutionOutcome.NotFound ∧
    (resolve regExpired codeA 10 payload0).outcome = ResolutionOutcome.NotFound ∧
    (resolve emptyReg codeA 10 payload0).outcome =
      (resolve regExpired codeA 10 payload0).outcome :=
  C3_notFound_indistinguishable emptyReg regExpired codeA entryExpired 10 payload0
    (by decide) (by decide) (by decide)

/-- Claim C5: on a live, unexpired entry whose receiver was dropped,
`resolve` still consumes the entry, the send is a no-op (nothing is
delivered), and the provider gets `DeliveredButUnheard` (HTTP 202 Accepted);
with the receiver present the outcome is `Delivered` (HTTP 200 Ok). -/
theorem C5_unheard_delivery (m : Registry) (c : RequestCode) (r : PendingRequest)
    (now : Nat) (p : AutofillData) (h : m c = some r) (hlive : now ≤ r.expires_at) :
    (r.notify = false →
      (resolve m c now p).outcome = ResolutionOutcome.DeliveredButUnheard ∧
      (resolve m c now p).delivered = none ∧
      (resolve m c now p).outcome.httpStatus = 202) ∧
    (r.notify = true →
      (resolve m c now p).outcome = ResolutionOutcome.Delivered ∧
      (resolve m c now p).delivered = some p ∧
      (resolve m c now p).outcome.httpStatus = 200) ∧
    (resolve m c now p).registry c = none := by
  rw [resolve_of_live _ _ _ _ _ h hlive]
  cases hn : r.notify <;>
    simp [hn, ResolutionOutcome.httpStatus, removeCode_self]

/-- Witness for C5: the dropped-receiver registry answers
`DeliveredButUnheard` and consumes the entry; the live-receiver registry
answers `Delivered`. -/
theorem C5_witness :
    (resolve regDeaf codeA 0 payload0).outcome = ResolutionOutcome.DeliveredButUnheard ∧
    (resolve regLive codeA 0 payload0).outcome = ResolutionOutcome.Delivered ∧
    (resolve regDeaf codeA 0 payload0).registry codeA = none := by
  have hdeaf := C5_unheard_delivery regDeaf codeA entryDeaf 0 payload0 (by decide) (by decide)
  have hlive := C5_unheard_delivery regLive codeA entryLive 0 payload0 (by decide) (by decide)
  exact ⟨(hdeaf.1 (by decide)).1, (hlive.2.1 (by decide)).1, hdeaf.2.2⟩

/-- Claim C7: every generated `RequestCode` has 9 bytes, all uppercase ASCII
letters; its textual representation parses back losslessly; and parsing
fails exactly on wrong length or a character outside `A`–`Z`. -/
theorem C7_code_roundtrip (draw : Nat → Nat) (s : List Nat) :
    (RequestCode.new_rand draw).bytes.length = 9 ∧
    (RequestCode.new_rand draw).bytes.all isUpperAZ = true ∧
    RequestCode.from_str (RequestCode.as_str (RequestCode.new_rand draw)) =
      Except.ok (RequestCode.new_rand draw) ∧
    (RequestCode.from_str s = Except.ok ⟨s⟩ ↔
      s.length = 9 ∧ s.all isUpperAZ = true) ∧
    ((∃ e, RequestCode.from_str s = Except.error e) ↔
      (s.length ≠ 9 ∨ ∃ b ∈ s, isUpperAZ b = false)) := by
  have hlen : (RequestCode.new_rand draw).bytes.length = 9 := by
    simp [RequestCode.new_rand]
  have hall : (RequestCode.new_rand draw).bytes.all isUpperAZ = true := by
    simp only [RequestCode.new_rand, List.all_eq_true, List.mem_map, List.mem_range]
    rintro b ⟨i, hi, rfl⟩
    simp only [isUpperAZ, byteA, byteZ, Bool.and_eq_true, decide_eq_true_eq]
    omega
  refine ⟨hlen, hall, ?_, ?_, ?_⟩
  · unfold RequestCode.from_str RequestCode.as_str
    rw [if_pos hlen, if_pos hall]
  · unfold RequestCode.from_str
    split_ifs with h9 ha
    · simp [h9, ha]
    · simp [ha]
    · simp [h9]
  · unfold RequestCode.from_str
    split_ifs with h9 ha
    · simp only [h9]
      constructor
      · rintro ⟨e, he⟩
        exact absurd he (by simp)
      · rintro (h | ⟨b, hb, hbad⟩)
        · exact absurd rfl h
        · have hb2 := List.all_eq_true.mp ha b hb
          rw [hbad] at hb2
          exact absurd hb2 (by simp)
    · constructor
      · rintro ⟨e, -⟩
        right
        have hx : ¬ ∀ b ∈ s, isUpperAZ b = true := by
          rw [← List.all_eq_true]
          exact ha
        push_neg at hx
        obtain ⟨b, hb, hbad⟩ := hx
        exact ⟨b, hb, by simpa using hbad⟩
      · intro hx
        exact ⟨"invalid character in key", rfl⟩
    · constructor
      · intro hx
        exact Or.inl h9
      · intro hx
        exact ⟨"mismatched keycode length", rfl⟩

/-- Witness for C7: a concretely generated code round-trips, and a
two-byte string is rejected for its length. -/
theorem C7_witness :
    RequestCode.from_str (RequestCode.as_str (RequestCode.new_rand (fun _ => 7))) =
      Except.ok (RequestCode.new_rand (fun _ => 7)) ∧
    RequestCode.from_str [65, 65] = Except.error "mismatched keycode length" :=
  ⟨(C7_code_roundtrip (fun _ => 7) []).2.2.1, rfl⟩

/-- Claim C9: one sweep of the expiry reclaimer keeps every entry whose
deadline is still in the future relative to the observed `now`. -/
theorem C9_sweep_keeps_unexpired (m : Registry) (now : Nat) (c : RequestCode)
    (r : PendingRequest) (h : m c = some r) (hfut : now < r.expires_at) :
    retain_live m now c = some r := by
  unfold retain_live
  rw [h]
  simp [hfut]

/-- Witness for C9: the sweep at instant 50 keeps the entry expiring
at instant 100. -/
theorem C9_witness : retain_live regLive 50 codeA = some entryLive :=
  C9_sweep_keeps_unexpired regLive 50 codeA entryLive (by decide) (by decide)

/-- Claim C10: at `now = expires_at` the inclusive checks of `resolve` and
`fetch` still treat the entry as live, while the reclaimer's strict retain
predicate removes it; away from that instant the two comparisons agree. -/
theorem C10_boundary_semantics (m : Registry) (c : RequestCode) (r : PendingRequest)
    (p : AutofillData) (h : m c = some r) :
    (resolve m c r.expires_at p).outcome ≠ ResolutionOutcome.NotFound ∧
    (fetch m c r.expires_at).result = some r.data_requested ∧
    retain_live m r.expires_at c = none ∧
    (∀ now, now ≠ r.expires_at → (now ≤ r.expires_at ↔ now < r.expires_at)) := by
  refine ⟨?_, ?_, ?_, ?_⟩
  · rw [resolve_of_live _ _ _ _ _ h le_rfl]
    cases hn : r.notify <;> simp [hn]
  · rw [fetch_result_of_some _ _ _ _ h, if_pos le_rfl]
  · unfold retain_live
    rw [h]
    simp
  · intro now hne
    omega

/-- Witness for C10 at the boundary instant 100 of `entryLive`: resolve
still delivers, fetch still answers, the sweep removes. -/
theorem C10_witness :
    (resolve regLive codeA 100 payload0).outcome ≠ ResolutionOutcome.NotFound ∧
    (fetch regLive codeA 100).result = some fields0 ∧
    retain_live regLive 100 codeA = none := by
  have h := C10_boundary_semantics regLive codeA entryLive payload0 (by decide)
  exact ⟨h.1, h.2.1, h.2.2.1⟩

/-- Claim C2, counterexample: `resolve` is built on `MAP.remove(&code)`,
which removes the entry unconditionally; on an expired-but-present entry the
outcome is `NotFound`, yet the entry is gone from the registry afterwards,
so the expired entry is not left untouched. -/
theorem C2_counterexample :
    regExpired codeA = some entryExpired ∧
    (resolve regExpired codeA 10 payload0).outcome = ResolutionOutcome.NotFound ∧
    (resolve regExpired codeA 10 payload0).registry codeA = none := by
  exact ⟨by decide, by decide, by decide⟩

/-- Claim C2 as amended: the take operation of `resolve` removes and hands
over the entry only if it exists and is unexpired; an expired-but-present
entry is also removed (though nothing is delivered and `NotFound` is
reported); the registry is unchanged when the code is absent, and entries at
other codes are never touched. -/
theorem C2_amended_take_semantics (m : Registry) (c : RequestCode) (now : Nat)
    (p : AutofillData) :
    (m c = none →
      (resolve m c now p).outcome = ResolutionOutcome.NotFound ∧
      ∀ x, (resolve m c now p).registry x = m x) ∧
    (∀ r, m c = some r → r.expires_at < now →
      (resolve m c now p).outcome = ResolutionOutcome.NotFound ∧
      (resolve m c now p).delivered = none ∧
      (resolve m c now p).registry c = none) ∧
    (∀ r, m c = some r → now ≤ r.expires_at →
      (resolve m c now p).outcome ≠ ResolutionOutcome.NotFound ∧
      (resolve m c now p).registry c = none) ∧
    (∀ x, x ≠ c → (resolve m c now p).registry x = m x) := by
  refine ⟨?_, ?_, ?_, ?_⟩
  · intro h
    rw [resolve_of_none _ _ _ _ h]
    refine ⟨rfl, ?_⟩
    intro x
    show removeCode m c x = m x
    by_cases hx : x = c
    · subst hx
      rw [removeCode_self, h]
    · exact removeCode_other m c x hx
  · intro r h hexp
    rw [resolve_of_expired _ _ _ _ _ h hexp]
    exact ⟨rfl, rfl, removeCode_self m c⟩
  · intro r h hlive
    rw [resolve_of_live _ _ _ _ _ h hlive]
    cases hn : r.notify <;> simp [removeCode_self]
  · intro x hx
    rw [resolve_registry]
    exact removeCode_other m c x hx

/-- Witness for the amended C2: the expired entry at `codeA` is removed by
the failed resolve, while the (absent) `codeB` slot is untouched. -/
theorem C2_witness :
    (resolve regExpired codeA 10 payload0).outcome = ResolutionOutcome.NotFound ∧
    (resolve regExpired codeA 10 payload0).registry codeA = none ∧
    (resolve regExpired codeA 10 payload0).registry codeB = regExpired codeB := by
  have h := C2_amended_take_semantics regExpired codeA 10 payload0
  exact ⟨(h.2.1 entryExpired (by decide) (by decide)).1,
    (h.2.1 entryExpired (by decide) (by decide)).2.2,
    h.2.2.2 codeB (by decide)⟩

/-! Fixtures for the create-then-resolve scenarios (C4, C6, C8). -/

/-- A draw stream that always proposes `codeA`. -/
def drawsA : Nat → RequestCode := fun _ => codeA

/-- The registry produced by `new_request` at instant 0 on the empty
registry with `drawsA`. -/
def mAfter : Registry :=
  fun c => if c = codeA then some ⟨true, fields0, 0 + timeoutSecs⟩ else emptyReg c

/-- Outcome of resolving at instant `t` the code created at instant 0. -/
def resolveAfterCreate (t : Nat) : Option ResolutionOutcome :=
  (new_request 1 drawsA 0 emptyReg 0 fields0).map
    (fun pr => (resolve pr.2 pr.1 t payload0).outcome)

/-- What the requester's awaitable yields when the only resolve attempt of
the code created at instant 0 happens at instant `t`. -/
def awaitAfterCreate (t : Nat) : Option AwaitOutcome :=
  (new_request 1 drawsA 0 emptyReg 0 fields0).map
    (fun pr => awaitOutcome (resolve pr.2 pr.1 t payload0).delivered)

/-- Claim C4, counterexample: the deadline stored by `new_request` is
`now + 183 s` (3 minutes plus the 3 s grace), so a resolve attempt at
`T + 181 s` still finds the entry live: it returns `Delivered`, not
`NotFound`, and the awaitable yields the payload, not `Timeout`. -/
theorem C4_counterexample :
    resolveAfterCreate 181 = some ResolutionOutcome.Delivered ∧
    resolveAfterCreate 181 ≠ some ResolutionOutcome.NotFound ∧
    awaitAfterCreate 181 = some (AwaitOutcome.Data payload0) := by
  exact ⟨by decide, by decide, by decide⟩

/-- Claim C4 as amended: for a request created at instant `T` (stored
deadline `T + 183 s`), a resolve attempt at `T + 184 s` — beyond the grace
window — returns `NotFound` and delivers nothing, so the requester's
awaitable yields `Timeout` rather than the late payload. -/
theorem C4_amended_late_resolve (fuel idx T : Nat) (draws : Nat → RequestCode)
    (m : Registry) (sel : RequestedAutofillFields) (code : RequestCode)
    (m' : Registry) (p : AutofillData)
    (h : new_request fuel draws idx m T sel = some (code, m')) :
    (resolve m' code (T + 184) p).outcome = ResolutionOutcome.NotFound ∧
    awaitOutcome (resolve m' code (T + 184) p).delivered = AwaitOutcome.Timeout := by
  obtain ⟨-, hm', -⟩ := new_request_spec fuel draws idx m T sel code m' h
  have hcode : m' code = some ⟨true, sel, T + timeoutSecs⟩ := by
    rw [hm']
    simp
  have hexp : (⟨true, sel, T + timeoutSecs⟩ : PendingRequest).expires_at < T + 184 := by
    show T + timeoutSecs < T + 184
    simp only [timeoutSecs]
    omega
  rw [resolve_of_expired _ _ _ _ _ hcode hexp]
  exact ⟨rfl, rfl⟩

/-- Witness for the amended C4 at `T = 0`: resolving at instant 184 the
code created at instant 0 is `NotFound` and the awaitable times out. -/
theorem C4_witness :
    (resolve mAfter codeA (0 + 184) payload0).outcome = ResolutionOutcome.NotFound ∧
    awaitOutcome (resolve mAfter codeA (0 + 184) payload0).delivered =
      AwaitOutcome.Timeout :=
  C4_amended_late_resolve 1 0 0 drawsA emptyReg fields0 codeA mAfter payload0 rfl

/-- Claim C6: after `create`, `peek` (the `fetch` handler) returns exactly
the `RequestedFields` passed at create time while the entry is live and
unexpired, returns `None` once the entry was resolved or its deadline has
passed, and never modifies the registry. -/
theorem C6_peek_semantics (fuel idx T : Nat) (draws : Nat → RequestCode)
    (m : Registry) (sel : RequestedAutofillFields) (code : RequestCode)
    (m' : Registry)
    (h : new_request fuel draws idx m T sel = some (code, m')) :
    (∀ t, t ≤ T + timeoutSecs → (fetch m' code t).result = some sel) ∧
    (∀ t, T + timeoutSecs < t → (fetch m' code t).result = none) ∧
    (∀ t1 t2 p, (fetch (resolve m' code t1 p).registry code t2).result = none) ∧
    (∀ t, (fetch m' code t).registry code = m' code) := by
  obtain ⟨-, hm', -⟩ := new_request_spec fuel draws idx m T sel code m' h
  have hcode : m' code = some ⟨true, sel, T + timeoutSecs⟩ := by
    rw [hm']
    simp
  refine ⟨?_, ?_, ?_, ?_⟩
  · intro t ht
    rw [fetch_result_of_some _ _ _ _ hcode]
    exact if_pos ht
  · intro t ht
    rw [fetch_result_of_some _ _ _ _ hcode]
    have hnot : ¬ t ≤ (⟨true, sel, T + timeoutSecs⟩ : PendingRequest).expires_at := by
      show ¬ t ≤ T + timeoutSecs
      omega
    exact if_neg hnot
  · intro t1 t2 p
    have hnone : (resolve m' code t1 p).registry code = none := by
      rw [resolve_registry]
      exact removeCode_self m' code
    unfold fetch
    rw [hnone]
  · intro t
    rw [fetch_registry]

/-- Witness for C6 at `T = 0`: peek answers `fields0` up to instant 183,
`none` at 184, `none` after a resolve, and leaves the entry in place. -/
theorem C6_witness :
    (fetch mAfter codeA 183).result = some fields0 ∧
    (fetch mAfter codeA 184).result = none ∧
    (fetch (resolve mAfter codeA 10 payload0).registry codeA 10).result = none ∧
    (fetch mAfter codeA 10).registry codeA = mAfter codeA := by
  have h := C6_peek_semantics 1 0 0 drawsA emptyReg fields0 codeA mAfter rfl
  exact ⟨h.1 183 (by decide), h.2.1 184 (by decide), h.2.2.1 10 10 payload0,
    h.2.2.2 10⟩

/-- Claim C8: when the `new_request` loop returns, the returned code was
absent from the registry at the instant of its insert-if-absent, the new
registry extends the old one only at that code, no live entry was
overwritten, and every earlier drawn candidate was discarded because it was
occupied. -/
theorem C8_insert_if_absent (fuel idx now : Nat) (draws : Nat → RequestCode)
    (m : Registry) (sel : RequestedAutofillFields) (code : RequestCode)
    (m' : Registry)
    (h : new_request fuel draws idx m now sel = some (code, m')) :
    m code = none ∧
    m' code = some ⟨true, sel, now + timeoutSecs⟩ ∧
    (∀ c, c ≠ code → m' c = m c) ∧
    (∀ c r, m c = some r → m' c = some r) ∧
    (∃ k, k < fuel ∧ code = draws (idx + k) ∧
      ∀ j, j < k → m (draws (idx + j)) ≠ none) := by
  obtain ⟨h1, hm', hk⟩ := new_request_spec fuel draws idx m now sel code m' h
  subst hm'
  refine ⟨h1, by simp, ?_, ?_, hk⟩
  · intro c hc
    simp [hc]
  · intro c r hr
    by_cases hc : c = code
    · subst hc
      rw [h1] at hr
      exact absurd hr (by simp)
    · simp [hc, hr]

/-- A draw stream whose first candidate is `codeB` and later ones `codeA`,
used to exercise the collision-retry path. -/
def drawsRetry : Nat → RequestCode := fun i => if i = 0 then codeB else codeA

/-- Registry occupied at `codeB`, so the first draw of `drawsRetry`
collides. -/
def regB : Registry := fun c => if c = codeB then some entryLive else none

/-- The registry after `new_request` at instant 5 on `regB` with
`drawsRetry`: the colliding first candidate was discarded and `codeA`
inserted. -/
def m8 : Registry :=
  fun c => if c = codeA then some ⟨true, fields0, 5 + timeoutSecs⟩ else regB c

/-- Witness for C8 on the retry path: `codeA` was vacant and is now filled,
while the live entry at `codeB` is untouched. -/
theorem C8_witness :
    regB codeA = none ∧
    m8 codeA = some ⟨true, fields0, 5 + timeoutSecs⟩ ∧
    m8 codeB = regB codeB ∧
    m8 codeB = some entryLive := by
  have h := C8_insert_if_absent 2 0 5 drawsRetry regB fields0 codeA m8 rfl
  exact ⟨h.1, h.2.1, h.2.2.1 codeB (by decide),
    h.2.2.2.1 codeB entryLive (by decide)⟩

end AbsherZT
